import Mathlib

/-!
Shallow embedding of the NeuroGate spiking-neural-network core
(`src/NeuroGate/c`): neuron model (`core/neuron.c`), synapse model
(`core/synapse.c`), command executor (`runtime/exec.c`) and the JNI
simulation-step front end (`api/bridge.c`).  C `float` state is modelled
over `ℝ`; mutation is modelled by explicit state passing (each stateful C
function returns the updated record).  Logging and the allocator are
collaborators outside the core and are not modelled.
-/

namespace NeuroGate

/-- Neuron types, from `NeuronType` in `core/neuron.h`. -/
inductive NeuronType
  | EXCITATORY
  | INHIBITORY
deriving DecidableEq, Repr

/-- Activation-function selector, from `ActivationFunction` in `core/neuron.h`. -/
inductive ActivationFunction
  | LINEAR
  | SIGMOID
  | RELU
  | TANH
deriving DecidableEq, Repr

/-- Neuron record, from `struct Neuron` in `core/neuron.h`.  The C
`connected_neurons` array together with `num_connections` is modelled as a
`List ℕ`; `user_data` is never used by the core and is omitted. -/
structure Neuron where
  id : ℕ
  type : NeuronType
  activation : ActivationFunction
  potential : ℝ
  threshold : ℝ
  rest_potential : ℝ
  refractory_period : ℝ
  last_fired : ℝ
  connected_neurons : List ℕ

/-- `neuron_create` from `core/neuron.c` (allocation failure is a host
concern and is not modelled; the returned record is the initialised
neuron). -/
noncomputable def neuron_create (id : ℕ) (type : NeuronType)
    (activation : ActivationFunction) : Neuron :=
  { id := id
    type := type
    activation := activation
    potential := -70
    threshold := -55
    rest_potential := -70
    refractory_period := 2
    last_fired := -1000
    connected_neurons := [] }

/-- `apply_activation` from `core/neuron.c`. -/
noncomputable def apply_activation : ActivationFunction → ℝ → ℝ
  | .LINEAR, value => value
  | .SIGMOID, value => 1 / (1 + Real.exp (-value))
  | .RELU, value => if value > 0 then value else 0
  | .TANH, value => Real.tanh value

/-- `neuron_compute` from `core/neuron.c`: integrates the input, applies the
leak, and returns the updated neuron together with the activation output. -/
noncomputable def neuron_compute (neuron : Neuron) (input dt : ℝ) :
    Neuron × ℝ :=
  let p := neuron.potential + input * dt
  let leak_rate : ℝ := 0.1
  let p := p * (1 - leak_rate) + neuron.rest_potential * leak_rate
  ({ neuron with potential := p }, apply_activation neuron.activation p)

/-- `neuron_fire` from `core/neuron.c`: returns the updated neuron together
with the C function's `int` result as a `Bool`. -/
noncomputable def neuron_fire (neuron : Neuron) (current_time : ℝ) :
    Neuron × Bool :=
  if current_time - neuron.last_fired < neuron.refractory_period then
    (neuron, false)
  else if neuron.potential ≥ neuron.threshold then
    ({ neuron with last_fired := current_time,
                   potential := neuron.rest_potential }, true)
  else
    (neuron, false)

/-- `neuron_reset` from `core/neuron.c`. -/
noncomputable def neuron_reset (neuron : Neuron) : Neuron :=
  { neuron with potential := neuron.rest_potential, last_fired := -1000 }

/-- `neuron_connect` from `core/neuron.c`, restricted to the connection
list of the source: appends the target id unless it is already present. -/
noncomputable def neuron_connect_ids (source : Neuron) (target_id : ℕ) :
    Neuron :=
  if target_id ∈ source.connected_neurons then source
  else { source with
           connected_neurons := source.connected_neurons ++ [target_id] }

/-- Synapse types, from `SynapseType` in `core/synapse.h`. -/
inductive SynapseType
  | EXCITATORY_SYNAPSE
  | INHIBITORY_SYNAPSE
  | MODULATORY_SYNAPSE
deriving DecidableEq, Repr

/-- Plasticity types, from `PlasticityType` in `core/synapse.h`. -/
inductive PlasticityType
  | STATIC
  | STDP
  | HEBBIAN
  | HOMEOSTATIC
deriving DecidableEq, Repr

/-- Synapse record, from `struct Synapse` in `core/synapse.h` (`user_data`
is never used by the core and is omitted). -/
structure Synapse where
  id : ℕ
  pre_neuron_id : ℕ
  post_neuron_id : ℕ
  type : SynapseType
  plasticity : PlasticityType
  weight : ℝ
  delay : ℝ
  last_active : ℝ
  max_weight : ℝ
  min_weight : ℝ

/-- `synapse_create` from `core/synapse.c`. -/
noncomputable def synapse_create (id pre_id post_id : ℕ)
    (type : SynapseType) : Synapse :=
  { id := id
    pre_neuron_id := pre_id
    post_neuron_id := post_id
    type := type
    plasticity := .STATIC
    weight :=
      if type = .EXCITATORY_SYNAPSE then 0.5
      else if type = .INHIBITORY_SYNAPSE then -0.5
      else 0.1
    delay := 1
    last_active := -1000
    max_weight := 1
    min_weight := -1 }

/-- `synapse_activate` from `core/synapse.c`: returns the updated synapse
together with the delivered signal. -/
noncomputable def synapse_activate (synapse : Synapse)
    (input current_time : ℝ) : Synapse × ℝ :=
  if current_time < synapse.last_active + synapse.delay then
    (synapse, 0)
  else
    ({ synapse with last_active := current_time }, input * synapse.weight)

/-- `synapse_update_weight` from `core/synapse.c` (STDP rule with clamp). -/
noncomputable def synapse_update_weight (synapse : Synapse)
    (pre_spike_time post_spike_time : ℝ) : Synapse :=
  if synapse.plasticity ≠ .STDP then synapse
  else
    let time_diff := post_spike_time - pre_spike_time
    let learning_rate : ℝ := 0.01
    let time_constant : ℝ := 20
    let weight_change : ℝ :=
      if time_diff > 0 then
        learning_rate * Real.exp (-time_diff / time_constant)
      else
        -learning_rate * Real.exp (time_diff / time_constant)
    let w := synapse.weight + weight_change
    let w :=
      if w > synapse.max_weight then synapse.max_weight
      else if w < synapse.min_weight then synapse.min_weight
      else w
    { synapse with weight := w }

/-- `synapse_reset` from `core/synapse.c`. -/
noncomputable def synapse_reset (synapse : Synapse) : Synapse :=
  { synapse with last_active := -1000 }

/-- An excitatory synapse with STDP plasticity whose weight already sits at
its `max_weight` (both equal to `1`). -/
noncomputable def saturated_stdp_synapse : Synapse :=
  { synapse_create 1 1 2 .EXCITATORY_SYNAPSE with
      plasticity := .STDP, weight := 1 }

/-- Command opcodes, from `command_type_t` in `runtime/exec.h`. -/
inductive CommandType
  | CMD_NOOP
  | CMD_CREATE_NEURON
  | CMD_DELETE_NEURON
  | CMD_CONNECT_NEURONS
  | CMD_CREATE_SYNAPSE
  | CMD_RUN_SIMULATION
  | CMD_RESET_SIMULATION
  | CMD_GET_NEURON_STATE
  | CMD_SET_NEURON_PARAM
  | CMD_GET_MEMORY_STATS
  | CMD_SHUTDOWN
deriving DecidableEq, Repr

/-- Command parameters, from `command_params_t` in `runtime/exec.h`.  The
raw `uint32_t` type selectors that `exec.c` casts to the enums are carried
here already decoded; `value` is the parameter value read by
`CMD_SET_NEURON_PARAM` (`exec.c` reads `params->value`); the opaque
`data`/`data_size` pair is never used by `exec_command` and is omitted. -/
structure CommandParams where
  neuron_id : ℕ
  neuron_type : NeuronType
  activation_type : ActivationFunction
  threshold : ℝ
  rest_potential : ℝ
  refractory_period : ℝ
  target_id : ℕ
  synapse_id : ℕ
  synapse_type : SynapseType
  weight : ℝ
  delay : ℝ
  sim_time : ℝ
  time_step : ℝ
  num_steps : ℕ
  value : ℝ

/-- Command result, from `command_result_t` in `runtime/exec.h` (the unused
`data`/`data_size` pair is omitted). -/
structure CommandResult where
  status : ℤ
  id : ℕ
  value : ℝ

/-- The executor's global state in `runtime/exec.c`: the `g_initialized` /
`g_running` flags, the neuron and synapse arrays (capacity bookkeeping is an
allocator concern and is not modelled), and `g_simulation_time`. -/
structure ExecState where
  initialized : Bool
  running : Bool
  neurons : List Neuron
  synapses : List Synapse
  simulation_time : ℝ

/-- The state established by `exec_init` in `runtime/exec.c`. -/
noncomputable def exec_init_state : ExecState :=
  { initialized := true
    running := true
    neurons := []
    synapses := []
    simulation_time := 0 }

/-- `find_neuron` from `runtime/exec.c`: first array entry with the id. -/
noncomputable def find_neuron : List Neuron → ℕ → Option Neuron
  | [], _ => none
  | n :: rest, id => if n.id = id then some n else find_neuron rest id

/-- `find_synapse` from `runtime/exec.c`: first array entry with the id. -/
noncomputable def find_synapse : List Synapse → ℕ → Option Synapse
  | [], _ => none
  | s :: rest, id => if s.id = id then some s else find_synapse rest id

/-- Comparison count of the `find_neuron` loop in `runtime/exec.c`: one per
array entry examined before (and including) the first match. -/
def find_neuron_cost : List Neuron → ℕ → ℕ
  | [], _ => 0
  | n :: rest, id => if n.id = id then 1 else 1 + find_neuron_cost rest id

/-- Comparison count of the propagation-time synapse scan in
`CMD_RUN_SIMULATION` (`runtime/exec.c`): one per synapse examined before
(and including) the first `(pre, post)` match. -/
def synapse_scan_cost : List Synapse → ℕ → ℕ → ℕ
  | [], _, _ => 0
  | s :: rest, pre, post =>
    if s.pre_neuron_id = pre ∧ s.post_neuron_id = post then 1
    else 1 + synapse_scan_cost rest pre post

/-- In-place mutation of the first array entry with the given id (the C
code mutates through the pointer returned by `find_neuron`). -/
noncomputable def update_first_neuron (id : ℕ) (f : Neuron → Neuron) :
    List Neuron → List Neuron
  | [] => []
  | n :: rest =>
    if n.id = id then f n :: rest
    else n :: update_first_neuron id f rest

/-- Removal of the first array entry with the given id
(`CMD_DELETE_NEURON` shifts the remaining entries down). -/
noncomputable def remove_first_neuron (id : ℕ) :
    List Neuron → List Neuron
  | [] => []
  | n :: rest => if n.id = id then rest else n :: remove_first_neuron id rest

/-- The propagation-time synapse scan of `CMD_RUN_SIMULATION`: activate the
first synapse matching `(pre, post)` (the loop `break`s after it) and
return the updated array together with the delivered signal, or `none` when
no synapse matches (the C code then touches nothing). -/
noncomputable def activate_first_synapse (pre post : ℕ) (time : ℝ) :
    List Synapse → List Synapse × Option ℝ
  | [] => ([], none)
  | s :: rest =>
    if s.pre_neuron_id = pre ∧ s.post_neuron_id = post then
      let r := synapse_activate s 1 time
      (r.1 :: rest, some r.2)
    else
      let r := activate_first_synapse pre post time rest
      (s :: r.1, r.2)

/-- Propagation to one `connected_neurons` entry of a fired neuron, from
`CMD_RUN_SIMULATION` in `runtime/exec.c`: if the target neuron no longer
exists the entry is skipped; otherwise the first matching synapse (if any)
is activated and its signal added to the target's potential. -/
noncomputable def propagate_one (time : ℝ) (pre_id target_id : ℕ)
    (ns : List Neuron) (ss : List Synapse) : List Neuron × List Synapse :=
  match find_neuron ns target_id with
  | none => (ns, ss)
  | some _ =>
    match activate_first_synapse pre_id target_id time ss with
    | (ss2, none) => (ns, ss2)
    | (ss2, some signal) =>
      (update_first_neuron target_id
        (fun n => { n with potential := n.potential + signal }) ns, ss2)

/-- Processing of the neuron at array index `i` within one simulation step
(`runtime/exec.c` / `api/bridge.c`): `neuron_compute` with external input
`0`, then `neuron_fire`, then, if it fired, propagation to each connected
target in order.  Returns the updated arrays and the activation output. -/
noncomputable def process_neuron_at (time dt : ℝ) (i : ℕ)
    (ns : List Neuron) (ss : List Synapse) :
    List Neuron × List Synapse × ℝ :=
  match ns.get? i with
  | none => (ns, ss, 0)
  | some n =>
    let c := neuron_compute n 0 dt
    let f := neuron_fire c.1 time
    let ns1 := ns.set i f.1
    if f.2 then
      let p := f.1.connected_neurons.foldl
        (fun (acc : List Neuron × List Synapse) tid =>
          propagate_one time f.1.id tid acc.1 acc.2) (ns1, ss)
      (p.1, p.2, c.2)
    else
      (ns1, ss, c.2)

/-- Loop body of the per-step neuron sweep: process index `i` and append
the neuron's activation output. -/
noncomputable def step_fold_fun (time dt : ℝ)
    (acc : List Neuron × List Synapse × List ℝ) (i : ℕ) :
    List Neuron × List Synapse × List ℝ :=
  let r := process_neuron_at time dt i acc.1 acc.2.1
  (r.1, r.2.1, acc.2.2 ++ [r.2.2])

/-- One sweep over all neurons in array (insertion) order, as performed by
`CMD_RUN_SIMULATION` and `runSimulationStep`: returns the updated arrays and
the per-neuron activation outputs in the same order. -/
noncomputable def step_neurons (time dt : ℝ) (ns : List Neuron)
    (ss : List Synapse) : List Neuron × List Synapse × List ℝ :=
  (List.range ns.length).foldl (step_fold_fun time dt) (ns, ss, [])

/-- One iteration of the `CMD_RUN_SIMULATION` step loop: advance
`g_simulation_time` by the time step, then sweep the neurons. -/
noncomputable def run_one_step (dt : ℝ) (st : ExecState) : ExecState :=
  let time := st.simulation_time + dt
  let r := step_neurons time dt st.neurons st.synapses
  { st with simulation_time := time, neurons := r.1, synapses := r.2.1 }

/-- The `CMD_RUN_SIMULATION` step loop, iterated `num_steps` times. -/
noncomputable def run_steps (dt : ℝ) : ℕ → ExecState → ExecState
  | 0, st => st
  | k + 1, st => run_steps dt k (run_one_step dt st)

/-- The neuron built by `CMD_CREATE_NEURON`: `neuron_create` followed by
the `!= 0.0f` override checks of `runtime/exec.c`. -/
noncomputable def make_neuron_from_params (params : CommandParams) :
    Neuron :=
  let neuron := neuron_create params.neuron_id params.neuron_type
      params.activation_type
  let neuron :=
    if params.threshold ≠ 0 then { neuron with threshold := params.threshold }
    else neuron
  let neuron :=
    if params.rest_potential ≠ 0 then
      { neuron with rest_potential := params.rest_potential }
    else neuron
  if params.refractory_period ≠ 0 then
    { neuron with refractory_period := params.refractory_period }
  else neuron

/-- The synapse built by `CMD_CREATE_SYNAPSE`: `synapse_create` followed by
the `!= 0.0f` override checks of `runtime/exec.c`. -/
noncomputable def make_synapse_from_params (params : CommandParams) :
    Synapse :=
  let synapse := synapse_create params.synapse_id params.neuron_id
      params.target_id params.synapse_type
  let synapse :=
    if params.weight ≠ 0 then { synapse with weight := params.weight }
    else synapse
  if params.delay ≠ 0 then { synapse with delay := params.delay }
  else synapse

/-- `exec_command` from `runtime/exec.c`, returning the result record and
the updated executor state. -/
noncomputable def exec_command (st : ExecState) (type : CommandType)
    (params : CommandParams) : CommandResult × ExecState :=
  if ¬ st.initialized then ({ status := -1, id := 0, value := 0 }, st)
  else if ¬ st.running then ({ status := -1, id := 0, value := 0 }, st)
  else
    match type with
    | .CMD_NOOP => ({ status := 0, id := 0, value := 0 }, st)
    | .CMD_CREATE_NEURON =>
      if (find_neuron st.neurons params.neuron_id).isSome then
        ({ status := -1, id := 0, value := 0 }, st)
      else
        ({ status := 0, id := params.neuron_id, value := 0 },
         { st with neurons := st.neurons ++ [make_neuron_from_params params] })
    | .CMD_DELETE_NEURON =>
      if (find_neuron st.neurons params.neuron_id).isSome then
        ({ status := 0, id := 0, value := 0 },
         { st with neurons := remove_first_neuron params.neuron_id st.neurons })
      else ({ status := -1, id := 0, value := 0 }, st)
    | .CMD_CONNECT_NEURONS =>
      match find_neuron st.neurons params.neuron_id,
            find_neuron st.neurons params.target_id with
      | some _, some target =>
        let ns2 := update_first_neuron params.neuron_id
          (fun n => neuron_connect_ids n target.id) st.neurons
        ({ status := 0, id := 0, value := 0 }, { st with neurons := ns2 })
      | _, _ => ({ status := -1, id := 0, value := 0 }, st)
    | .CMD_CREATE_SYNAPSE =>
      if (find_synapse st.synapses params.synapse_id).isSome then
        ({ status := -1, id := 0, value := 0 }, st)
      else
        match find_neuron st.neurons params.neuron_id,
              find_neuron st.neurons params.target_id with
        | some _, some _ =>
          let ss2 := st.synapses ++ [make_synapse_from_params params]
          ({ status := 0, id := params.synapse_id, value := 0 },
           { st with synapses := ss2 })
        | _, _ => ({ status := -1, id := 0, value := 0 }, st)
    | .CMD_RUN_SIMULATION =>
      let time_step := if params.time_step > 0 then params.time_step else 1
      let num_steps := if params.num_steps > 0 then params.num_steps else 1
      let st2 := run_steps time_step num_steps st
      ({ status := 0, id := 0, value := st2.simulation_time }, st2)
    | .CMD_RESET_SIMULATION =>
      let ns2 := st.neurons.map neuron_reset
      let ss2 := st.synapses.map synapse_reset
      ({ status := 0, id := 0, value := 0 },
       { st with neurons := ns2, synapses := ss2, simulation_time := 0 })
    | .CMD_GET_NEURON_STATE =>
      match find_neuron st.neurons params.neuron_id with
      | some n => ({ status := 0, id := n.id, value := n.potential }, st)
      | none => ({ status := -1, id := 0, value := 0 }, st)
    | .CMD_SET_NEURON_PARAM =>
      match find_neuron st.neurons params.neuron_id with
      | none => ({ status := -1, id := 0, value := 0 }, st)
      | some _ =>
        match params.target_id with
        | 1 =>
          let ns2 := update_first_neuron params.neuron_id
            (fun n => { n with threshold := params.value }) st.neurons
          ({ status := 0, id := 0, value := 0 }, { st with neurons := ns2 })
        | 2 =>
          let ns2 := update_first_neuron params.neuron_id
            (fun n => { n with rest_potential := params.value }) st.neurons
          ({ status := 0, id := 0, value := 0 }, { st with neurons := ns2 })
        | 3 =>
          let ns2 := update_first_neuron params.neuron_id
            (fun n => { n with refractory_period := params.value }) st.neurons
          ({ status := 0, id := 0, value := 0 }, { st with neurons := ns2 })
        | 4 =>
          let ns2 := update_first_neuron params.neuron_id
            (fun n => { n with potential := params.value }) st.neurons
          ({ status := 0, id := 0, value := 0 }, { st with neurons := ns2 })
        | _ => ({ status := -1, id := 0, value := 0 }, st)
    | .CMD_GET_MEMORY_STATS =>
      ({ status := 0, id := 0, value := 0 }, st)
    | .CMD_SHUTDOWN =>
      ({ status := 0, id := 0, value := 0 }, { st with running := false })

/-- Positional application of the external inputs of `runSimulationStep`
(`api/bridge.c`): `g_neurons[i]->potential += input_data[i]` for every `i`
below both lengths. -/
noncomputable def apply_inputs : List Neuron → List ℝ → List Neuron
  | ns, [] => ns
  | [], _ => []
  | n :: ns, v :: vs =>
    { n with potential := n.potential + v } :: apply_inputs ns vs

/-- `Java_interop_NeuroBridge_runSimulationStep` from `api/bridge.c`:
apply the inputs positionally, advance the clock, sweep the neurons in
insertion order, and return the per-neuron activation outputs (`none`
models the `NULL` return when the engine is not initialized). -/
noncomputable def bridge_run_simulation_step (st : ExecState)
    (inputs : List ℝ) (timeStep : ℝ) : Option (List ℝ) × ExecState :=
  if ¬ st.initialized then (none, st)
  else
    let ns0 := apply_inputs st.neurons inputs
    let time := st.simulation_time + timeStep
    let r := step_neurons time timeStep ns0 st.synapses
    (some r.2.2,
     { st with simulation_time := time, neurons := r.1, synapses := r.2.1 })

/-- A `CommandParams` record with all fields zeroed (`command_params_t
params = {0}` in `runtime/exec.c`). -/
noncomputable def default_command_params : CommandParams :=
  { neuron_id := 0
    neuron_type := .EXCITATORY
    activation_type := .LINEAR
    threshold := 0
    rest_potential := 0
    refractory_period := 0
    target_id := 0
    synapse_id := 0
    synapse_type := .EXCITATORY_SYNAPSE
    weight := 0
    delay := 0
    sim_time := 0
    time_step := 0
    num_steps := 0
    value := 0 }

/-- A sequence of `CMD_CREATE_NEURON` commands executed in order. -/
noncomputable def create_neurons_fold (st : ExecState)
    (ps : List CommandParams) : ExecState :=
  ps.foldl (fun s p => (exec_command s .CMD_CREATE_NEURON p).2) st

/-- An initialized, running executor state holding neurons `1` and `2`. -/
noncomputable def two_neuron_state : ExecState :=
  { initialized := true
    running := true
    neurons := [neuron_create 1 .EXCITATORY .LINEAR,
                neuron_create 2 .EXCITATORY .LINEAR]
    synapses := []
    simulation_time := 0 }

/-- `CMD_CREATE_SYNAPSE` parameters carrying a weight override of `2`,
outside the default bounds `[-1, 1]`. -/
noncomputable def overweight_synapse_params : CommandParams :=
  { default_command_params with
      neuron_id := 1
      target_id := 2
      synapse_id := 1
      weight := 2 }

/-- An initialized, running state whose only neuron lists the nonexistent
neuron `5` as a connection target. -/
noncomputable def dangling_connection_state : ExecState :=
  { initialized := true
    running := true
    neurons := [{ neuron_create 1 .EXCITATORY .LINEAR with
                    connected_neurons := [5] }]
    synapses := []
    simulation_time := 0 }

/-- `CMD_CREATE_NEURON` parameters for neuron id `1`. -/
noncomputable def create_params_one : CommandParams :=
  { default_command_params with neuron_id := 1 }

/-- `CMD_CREATE_NEURON` parameters for neuron id `2`. -/
noncomputable def create_params_two : CommandParams :=
  { default_command_params with neuron_id := 2 }

end NeuroGate

namespace NeuroGate

/-- The C clamp `if w > hi then hi else if w < lo then lo else w` stays in
`[lo, hi]` when `lo ≤ hi`. -/
lemma clamp_mem_Icc (w lo hi : ℝ) (h : lo ≤ hi) :
    lo ≤ (if w > hi then hi else if w < lo then lo else w) ∧
      (if w > hi then hi else if w < lo then lo else w) ≤ hi := by
  split_ifs with h1 h2 <;> constructor <;> linarith

/-- The C clamp agrees with `max lo (min hi ·)` when `lo ≤ hi`. -/
lemma clamp_eq_max_min (w lo hi : ℝ) (h : lo ≤ hi) :
    (if w > hi then hi else if w < lo then lo else w) =
      max lo (min hi w) := by
  split_ifs with h1 h2
  · rw [min_eq_left h1.le, max_eq_right h]
  · rw [min_eq_right (le_trans h2.le h), max_eq_left h2.le]
  · rw [min_eq_right (not_lt.mp h1), max_eq_right (not_lt.mp h2)]

/-- Adding a positive increment and clamping strictly increases a weight
that is below the upper bound. -/
lemma clamp_strict_mono_of_pos (w d lo hi : ℝ) (hd : 0 < d) (hw : w < hi) :
    w < (if w + d > hi then hi else if w + d < lo then lo else w + d) := by
  split_ifs with h1 h2 <;> linarith

/-- Adding a negative increment and clamping strictly decreases a weight
that is above the lower bound. -/
lemma clamp_strict_anti_of_neg (w d lo hi : ℝ) (hd : d < 0) (hw : lo < w) :
    (if w + d > hi then hi else if w + d < lo then lo else w + d) < w := by
  split_ifs with h1 h2 <;> linarith

/-- The weight computed by `synapse_update_weight` in the STDP case,
with the `let`-bound locals of the source unfolded. -/
lemma synapse_update_weight_stdp_weight (s : Synapse) (pre post : ℝ)
    (h : s.plasticity = .STDP) :
    (synapse_update_weight s pre post).weight =
      if s.weight +
           (if post - pre > 0 then 0.01 * Real.exp (-(post - pre) / 20)
            else -0.01 * Real.exp ((post - pre) / 20)) > s.max_weight
      then s.max_weight
      else if s.weight +
           (if post - pre > 0 then 0.01 * Real.exp (-(post - pre) / 20)
            else -0.01 * Real.exp ((post - pre) / 20)) < s.min_weight
      then s.min_weight
      else s.weight +
           (if post - pre > 0 then 0.01 * Real.exp (-(post - pre) / 20)
            else -0.01 * Real.exp ((post - pre) / 20)) := by
  have hp : ¬ s.plasticity ≠ PlasticityType.STDP := by simp [h]
  rw [synapse_update_weight, if_neg hp]

/-- After an STDP update the weight lies in `[min_weight, max_weight]`
(whenever those bounds are ordered), because of the final clamp. -/
lemma synapse_update_weight_weight_bounds (s : Synapse) (pre post : ℝ)
    (hminmax : s.min_weight ≤ s.max_weight)
    (hs : s.plasticity = .STDP) :
    s.min_weight ≤ (synapse_update_weight s pre post).weight ∧
      (synapse_update_weight s pre post).weight ≤ s.max_weight := by
  rw [synapse_update_weight_stdp_weight s pre post hs]
  exact clamp_mem_Icc _ _ _ hminmax


/-- The default weight assigned by `synapse_create` lies in `[-1, 1]` for
every synapse type. -/
lemma synapse_create_weight_mem (id pid qid : ℕ) (type : SynapseType) :
    -1 ≤ (synapse_create id pid qid type).weight ∧
      (synapse_create id pid qid type).weight ≤ 1 := by
  constructor <;> simp only [synapse_create] <;> split_ifs <;> norm_num

/-- Field values of the synapse built by `CMD_CREATE_SYNAPSE`. -/
lemma make_synapse_from_params_fields (p : CommandParams) :
    (make_synapse_from_params p).weight =
      (if p.weight ≠ 0 then p.weight
       else (synapse_create p.synapse_id p.neuron_id p.target_id
               p.synapse_type).weight) ∧
    (make_synapse_from_params p).min_weight = -1 ∧
    (make_synapse_from_params p).max_weight = 1 := by
  rw [make_synapse_from_params]
  split_ifs with h1 h2 <;> simp [synapse_create]

/-- The overrides of `CMD_CREATE_NEURON` never touch the id. -/
lemma make_neuron_from_params_id (p : CommandParams) :
    (make_neuron_from_params p).id = p.neuron_id := by
  rw [make_neuron_from_params]
  split_ifs <;> rfl

/-- `find_neuron` over a concatenation searches the first array segment
first. -/
lemma find_neuron_append (l1 l2 : List Neuron) (id : ℕ) :
    find_neuron (l1 ++ l2) id =
      match find_neuron l1 id with
      | some n => some n
      | none => find_neuron l2 id := by
  induction l1 with
  | nil => simp [find_neuron]
  | cons n rest ih =>
    by_cases h : n.id = id <;> simp [find_neuron, h, ih]

/-- `find_neuron` misses exactly when no entry carries the id. -/
lemma find_neuron_of_no_match (ns : List Neuron) (id : ℕ)
    (h : ∀ n ∈ ns, n.id ≠ id) : find_neuron ns id = none := by
  induction ns with
  | nil => rfl
  | cons n rest ih =>
    simp only [find_neuron, if_neg (h n (List.mem_cons_self n rest))]
    exact ih (fun x hx => h x (List.mem_cons_of_mem n hx))

/-- On a miss the `find_neuron` loop examines every array entry. -/
lemma find_neuron_cost_of_no_match (ns : List Neuron) (id : ℕ)
    (h : ∀ n ∈ ns, n.id ≠ id) : find_neuron_cost ns id = ns.length := by
  induction ns with
  | nil => rfl
  | cons n rest ih =>
    simp only [find_neuron_cost, if_neg (h n (List.mem_cons_self n rest)),
      List.length_cons]
    rw [ih (fun x hx => h x (List.mem_cons_of_mem n hx))]
    omega

/-- The `find_neuron` loop never examines more entries than the array
holds. -/
lemma find_neuron_cost_le_length (ns : List Neuron) (id : ℕ) :
    find_neuron_cost ns id ≤ ns.length := by
  induction ns with
  | nil => simp [find_neuron_cost]
  | cons n rest ih =>
    simp only [find_neuron_cost, List.length_cons]
    split_ifs <;> omega

/-- On a miss the propagation-time synapse scan examines every synapse. -/
lemma synapse_scan_cost_of_no_match (ss : List Synapse) (pre post : ℕ)
    (h : ∀ s ∈ ss, ¬ (s.pre_neuron_id = pre ∧ s.post_neuron_id = post)) :
    synapse_scan_cost ss pre post = ss.length := by
  induction ss with
  | nil => rfl
  | cons s rest ih =>
    simp only [synapse_scan_cost, if_neg (h s (List.mem_cons_self s rest)),
      List.length_cons]
    rw [ih (fun x hx => h x (List.mem_cons_of_mem s hx))]
    omega

/-- The propagation-time synapse scan never examines more synapses than the
array holds. -/
lemma synapse_scan_cost_le_length (ss : List Synapse) (pre post : ℕ) :
    synapse_scan_cost ss pre post ≤ ss.length := by
  induction ss with
  | nil => simp [synapse_scan_cost]
  | cons s rest ih =>
    simp only [synapse_scan_cost, List.length_cons]
    split_ifs <;> omega

/-- The state after `CMD_CREATE_NEURON`, and the duplicate-id error. -/
lemma exec_create_neuron_state (st : ExecState) (p : CommandParams)
    (hi : st.initialized = true) (hr : st.running = true) :
    (exec_command st .CMD_CREATE_NEURON p).2 =
      (if (find_neuron st.neurons p.neuron_id).isSome then st
       else { st with
                neurons := st.neurons ++ [make_neuron_from_params p] }) ∧
    ((find_neuron st.neurons p.neuron_id).isSome = true →
      exec_command st .CMD_CREATE_NEURON p =
        ({ status := -1, id := 0, value := 0 }, st)) := by
  constructor
  · by_cases h : (find_neuron st.neurons p.neuron_id).isSome <;>
      simp [exec_command, hi, hr, h]
  · intro h
    simp [exec_command, hi, hr, h]

/-- `CMD_CREATE_NEURON` preserves the lifecycle flags, never removes a
findable neuron, and makes its own id findable. -/
lemma exec_create_neuron_preserves (st : ExecState) (p : CommandParams)
    (hi : st.initialized = true) (hr : st.running = true) :
    ((exec_command st .CMD_CREATE_NEURON p).2.initialized = true ∧
     (exec_command st .CMD_CREATE_NEURON p).2.running = true) ∧
    (∀ id, (find_neuron st.neurons id).isSome = true →
      (find_neuron (exec_command st .CMD_CREATE_NEURON p).2.neurons
          id).isSome = true) ∧
    (find_neuron (exec_command st .CMD_CREATE_NEURON p).2.neurons
        p.neuron_id).isSome = true := by
  rw [(exec_create_neuron_state st p hi hr).1]
  by_cases h : (find_neuron st.neurons p.neuron_id).isSome
  · rw [if_pos h]
    exact ⟨⟨hi, hr⟩, fun id hh => hh, h⟩
  · rw [if_neg h]
    refine ⟨⟨hi, hr⟩, ?_, ?_⟩
    · intro id hh
      show (find_neuron (st.neurons ++ [make_neuron_from_params p])
          id).isSome = true
      rw [find_neuron_append]
      rcases ho : find_neuron st.neurons id with _ | n
      · rw [ho] at hh
        simp at hh
      · simp
    · show (find_neuron (st.neurons ++ [make_neuron_from_params p])
          p.neuron_id).isSome = true
      rw [find_neuron_append]
      have ho : find_neuron st.neurons p.neuron_id = none := by
        cases hfind : find_neuron st.neurons p.neuron_id
        · rfl
        · rw [hfind] at h
          simp at h
      rw [ho]
      simp [find_neuron, make_neuron_from_params_id]

/-- Folding a sequence of `CMD_CREATE_NEURON` commands keeps the flags,
keeps every previously findable neuron findable, and makes every attempted
id findable. -/
lemma create_fold_invariant (ps : List CommandParams) :
    ∀ st : ExecState, st.initialized = true → st.running = true →
      ((create_neurons_fold st ps).initialized = true ∧
       (create_neurons_fold st ps).running = true) ∧
      (∀ id, (find_neuron st.neurons id).isSome = true →
        (find_neuron (create_neurons_fold st ps).neurons id).isSome
          = true) ∧
      (∀ p ∈ ps, (find_neuron (create_neurons_fold st ps).neurons
          p.neuron_id).isSome = true) := by
  induction ps with
  | nil =>
    intro st hi hr
    exact ⟨⟨hi, hr⟩, fun id h => h,
      fun p hp => absurd hp (List.not_mem_nil p)⟩
  | cons p rest ih =>
    intro st hi hr
    have hstep := exec_create_neuron_preserves st p hi hr
    have hrec := ih (exec_command st .CMD_CREATE_NEURON p).2
      hstep.1.1 hstep.1.2
    have hfold : create_neurons_fold st (p :: rest) =
        create_neurons_fold (exec_command st .CMD_CREATE_NEURON p).2
          rest := rfl
    rw [hfold]
    refine ⟨hrec.1, ?_, ?_⟩
    · intro id hh
      exact hrec.2.1 id (hstep.2.1 id hh)
    · intro q hq
      rcases List.mem_cons.mp hq with h1 | h2
      · subst h1
        exact hrec.2.1 q.neuron_id hstep.2.2
      · exact hrec.2.2 q h2

/-- The propagation synapse scan is the identity, delivering nothing, when
no synapse matches the `(pre, post)` pair. -/
lemma activate_first_synapse_no_match (pre post : ℕ) (time : ℝ)
    (ss : List Synapse)
    (h : ∀ s ∈ ss, ¬ (s.pre_neuron_id = pre ∧ s.post_neuron_id = post)) :
    activate_first_synapse pre post time ss = (ss, none) := by
  induction ss with
  | nil => rfl
  | cons s rest ih =>
    simp only [activate_first_synapse,
      if_neg (h s (List.mem_cons_self s rest)),
      ih (fun x hx => h x (List.mem_cons_of_mem s hx))]

/-- Applying external inputs positionally does not change the neuron
count. -/
lemma apply_inputs_length (ns : List Neuron) (ins : List ℝ) :
    (apply_inputs ns ins).length = ns.length := by
  induction ns generalizing ins with
  | nil => cases ins <;> rfl
  | cons n rest ih =>
    cases ins with
    | nil => rfl
    | cons v vs => simp [apply_inputs, ih]

/-- The per-step sweep appends exactly one output per processed index. -/
lemma step_fold_outputs_length (time dt : ℝ) (l : List ℕ) :
    ∀ acc : List Neuron × List Synapse × List ℝ,
      ((l.foldl (step_fold_fun time dt) acc).2.2).length =
        acc.2.2.length + l.length := by
  induction l with
  | nil =>
    intro acc
    simp
  | cons i rest ih =>
    intro acc
    rw [List.foldl_cons, ih]
    simp only [step_fold_fun, List.length_append, List.length_cons,
      List.length_nil]
    omega

/-- One sweep produces exactly one output per neuron. -/
lemma step_neurons_outputs_length (time dt : ℝ) (ns : List Neuron)
    (ss : List Synapse) :
    (step_neurons time dt ns ss).2.2.length = ns.length := by
  rw [step_neurons, step_fold_outputs_length]
  simp

/-- C1: `neuron_fire` returns `false` and leaves the neuron unchanged while
the refractory window is open, regardless of the potential; outside the
window it fires exactly when `potential ≥ threshold`, setting
`last_fired := now` and resetting the potential to `rest_potential`; in
particular a neuron whose potential equals its threshold fires once the
refractory window has passed. -/
theorem neuron_fire_refractory_threshold_spec (n : Neuron) (now : ℝ) :
    (now - n.last_fired < n.refractory_period →
       neuron_fire n now = (n, false)) ∧
    (¬ now - n.last_fired < n.refractory_period →
       n.threshold ≤ n.potential →
       neuron_fire n now =
         ({ n with last_fired := now, potential := n.rest_potential },
          true)) ∧
    (¬ now - n.last_fired < n.refractory_period →
       n.potential < n.threshold →
       neuron_fire n now = (n, false)) ∧
    (n.refractory_period ≤ now - n.last_fired →
       n.potential = n.threshold →
       (neuron_fire n now).2 = true ∧
       (neuron_fire n now).1.potential = n.rest_potential) := by
  refine ⟨?_, ?_, ?_, ?_⟩
  · intro h
    simp [neuron_fire, h]
  · intro h hge
    simp [neuron_fire, h, hge]
  · intro h hlt
    simp [neuron_fire, h, not_le.mpr hlt]
  · intro h heq
    have h' : ¬ now - n.last_fired < n.refractory_period := not_lt.mpr h
    simp [neuron_fire, h', heq.ge, heq]

/-- C1 witness: the freshly created neuron (potential `-70`, threshold
`-55`, `last_fired = -1000`) does not fire at time `0`, and the same neuron
with its potential raised to the threshold does fire at time `0`. -/
theorem neuron_fire_refractory_threshold_spec_witness :
    neuron_fire (neuron_create 1 .EXCITATORY .LINEAR) 0 =
      (neuron_create 1 .EXCITATORY .LINEAR, false) ∧
    (neuron_fire
       { neuron_create 1 .EXCITATORY .LINEAR with potential := -55 } 0).2 =
      true :=
  ⟨(neuron_fire_refractory_threshold_spec
      (neuron_create 1 .EXCITATORY .LINEAR) 0).2.2.1
      (by norm_num [neuron_create]) (by norm_num [neuron_create]),
   ((neuron_fire_refractory_threshold_spec
      { neuron_create 1 .EXCITATORY .LINEAR with potential := -55 } 0).2.2.2
      (by norm_num [neuron_create]) (by norm_num [neuron_create])).1⟩

/-- C2: `neuron_compute` integrates `input * dt` into the potential, applies
the leak `potential * 0.9 + rest_potential * 0.1`, and returns the
activation function applied to the new potential; the activation functions
are the identity, the logistic sigmoid, `max x 0`, and `tanh`. -/
theorem neuron_compute_leak_activation_spec (n : Neuron) (input dt : ℝ) :
    neuron_compute n input dt =
      ({ n with potential :=
           (n.potential + input * dt) * 0.9 + n.rest_potential * 0.1 },
       apply_activation n.activation
         ((n.potential + input * dt) * 0.9 + n.rest_potential * 0.1)) ∧
    (∀ x : ℝ, apply_activation .LINEAR x = x) ∧
    (∀ x : ℝ, apply_activation .SIGMOID x = 1 / (1 + Real.exp (-x))) ∧
    (∀ x : ℝ, apply_activation .RELU x = max x 0) ∧
    (∀ x : ℝ, apply_activation .TANH x = Real.tanh x) := by
  refine ⟨?_, fun x => rfl, fun x => rfl, ?_, fun x => rfl⟩
  · rw [neuron_compute]
    norm_num
  · intro x
    rw [apply_activation]
    rcases lt_or_le 0 x with h | h
    · rw [if_pos h, max_eq_left h.le]
    · rw [if_neg (not_lt.mpr h), max_eq_right h]

/-- C3 counterexample: an `synapse_activate` call in the at-or-after-delay
regime (`¬ now < last_active + delay`) with input `0` returns `0`, not a
nonzero `input * weight`. -/
theorem synapse_activate_nonzero_cex :
    ¬ (0 : ℝ) <
        (synapse_create 1 1 2 .EXCITATORY_SYNAPSE).last_active +
          (synapse_create 1 1 2 .EXCITATORY_SYNAPSE).delay ∧
    (synapse_activate (synapse_create 1 1 2 .EXCITATORY_SYNAPSE) 0 0).2
      = 0 := by
  constructor
  · norm_num [synapse_create]
  · rw [synapse_activate]
    norm_num [synapse_create]

/-- C3 (amended): `synapse_activate` returns `0` and changes no state when
`now < last_active + delay`; otherwise it sets `last_active := now` and
returns `input * weight`, which is nonzero whenever both `input` and
`weight` are nonzero. -/
theorem synapse_activate_delay_gating_spec (s : Synapse) (input now : ℝ) :
    (now < s.last_active + s.delay →
       synapse_activate s input now = (s, 0)) ∧
    (¬ now < s.last_active + s.delay →
       synapse_activate s input now =
         ({ s with last_active := now }, input * s.weight)) ∧
    (¬ now < s.last_active + s.delay → input ≠ 0 → s.weight ≠ 0 →
       (synapse_activate s input now).2 ≠ 0) := by
  refine ⟨?_, ?_, ?_⟩
  · intro h
    rw [synapse_activate, if_pos h]
  · intro h
    rw [synapse_activate, if_neg h]
  · intro h hin hw
    rw [synapse_activate, if_neg h]
    exact mul_ne_zero hin hw

/-- C3 witness: a fresh excitatory synapse (ready to fire, weight `0.5`)
activated with input `1` at time `0` updates its `last_active` and delivers
the nonzero signal `1 * 0.5`. -/
theorem synapse_activate_delay_gating_spec_witness :
    synapse_activate (synapse_create 1 1 2 .EXCITATORY_SYNAPSE) 1 0 =
      ({ synapse_create 1 1 2 .EXCITATORY_SYNAPSE with last_active := 0 },
       1 * (synapse_create 1 1 2 .EXCITATORY_SYNAPSE).weight) ∧
    (synapse_activate (synapse_create 1 1 2 .EXCITATORY_SYNAPSE) 1 0).2
      ≠ 0 :=
  ⟨(synapse_activate_delay_gating_spec
      (synapse_create 1 1 2 .EXCITATORY_SYNAPSE) 1 0).2.1
      (by norm_num [synapse_create]),
   (synapse_activate_delay_gating_spec
      (synapse_create 1 1 2 .EXCITATORY_SYNAPSE) 1 0).2.2
      (by norm_num [synapse_create]) one_ne_zero
      (by norm_num [synapse_create])⟩

/-- C4 counterexample: for an STDP synapse whose weight already equals
`max_weight`, the update with `Δt = 5` (pre `10`, post `15`) does not
strictly increase the weight — the clamp maps it back to `max_weight`. -/
theorem synapse_update_weight_strict_increase_cex :
    ¬ saturated_stdp_synapse.weight <
        (synapse_update_weight saturated_stdp_synapse 10 15).weight := by
  have h := (synapse_update_weight_weight_bounds saturated_stdp_synapse 10 15
      (by norm_num [saturated_stdp_synapse, synapse_create]) rfl).2
  exact not_lt.mpr
    (le_trans h (by norm_num [saturated_stdp_synapse, synapse_create]))

/-- C4 (amended): `synapse_update_weight` is a no-op unless the plasticity
is STDP; for STDP it adds `+0.01·e^(-Δt/20)` when `Δt > 0` and
`-0.01·e^(Δt/20)` otherwise, then clamps into `[min_weight, max_weight]`;
for `Δt = 5` the weight strictly increases provided it was below
`max_weight`, for `Δt = -5` it strictly decreases provided it was above
`min_weight`; the updated weight always lies in `[min_weight, max_weight]`
(when the bounds are ordered) and the bounds themselves are unchanged, so
repeated updates never leave the interval. -/
theorem synapse_update_weight_stdp_spec (s : Synapse) (pre post : ℝ) :
    (s.plasticity ≠ .STDP → synapse_update_weight s pre post = s) ∧
    (s.plasticity = .STDP → s.min_weight ≤ s.max_weight →
       (synapse_update_weight s pre post).weight =
         max s.min_weight (min s.max_weight (s.weight +
           (if post - pre > 0 then 0.01 * Real.exp (-(post - pre) / 20)
            else -0.01 * Real.exp ((post - pre) / 20))))) ∧
    (s.plasticity = .STDP → s.weight < s.max_weight → post - pre = 5 →
       s.weight < (synapse_update_weight s pre post).weight) ∧
    (s.plasticity = .STDP → s.min_weight < s.weight → post - pre = -5 →
       (synapse_update_weight s pre post).weight < s.weight) ∧
    (s.plasticity = .STDP → s.min_weight ≤ s.max_weight →
       s.min_weight ≤ (synapse_update_weight s pre post).weight ∧
       (synapse_update_weight s pre post).weight ≤ s.max_weight) ∧
    (synapse_update_weight s pre post).min_weight = s.min_weight ∧
    (synapse_update_weight s pre post).max_weight = s.max_weight := by
  refine ⟨?_, ?_, ?_, ?_, ?_, ?_, ?_⟩
  · intro h
    rw [synapse_update_weight, if_pos h]
  · intro h hmm
    rw [synapse_update_weight_stdp_weight s pre post h,
        clamp_eq_max_min _ _ _ hmm]
  · intro h hw hpost
    rw [synapse_update_weight_stdp_weight s pre post h, hpost]
    rw [if_pos (by norm_num : (5:ℝ) > 0)]
    exact clamp_strict_mono_of_pos _ _ _ _ (by positivity) hw
  · intro h hw hpost
    rw [synapse_update_weight_stdp_weight s pre post h, hpost]
    rw [if_neg (by norm_num : ¬ (-5:ℝ) > 0)]
    have hexp : (0:ℝ) < Real.exp ((-5:ℝ) / 20) := Real.exp_pos _
    exact clamp_strict_anti_of_neg _ _ _ _ (by linarith) hw
  · intro h hmm
    exact synapse_update_weight_weight_bounds s pre post hmm h
  · rw [synapse_update_weight]
    split_ifs <;> rfl
  · rw [synapse_update_weight]
    split_ifs <;> rfl

/-- C4 witness: a fresh excitatory STDP synapse (weight `0.5`, bounds
`[-1, 1]`) strictly increases its weight on a `Δt = 5` update and strictly
decreases it on a `Δt = -5` update. -/
theorem synapse_update_weight_stdp_spec_witness :
    ({ synapse_create 1 1 2 .EXCITATORY_SYNAPSE with
         plasticity := PlasticityType.STDP } : Synapse).weight <
      (synapse_update_weight
         { synapse_create 1 1 2 .EXCITATORY_SYNAPSE with
             plasticity := PlasticityType.STDP } 10 15).weight ∧
    (synapse_update_weight
         { synapse_create 1 1 2 .EXCITATORY_SYNAPSE with
             plasticity := PlasticityType.STDP } 15 10).weight <
      ({ synapse_create 1 1 2 .EXCITATORY_SYNAPSE with
           plasticity := PlasticityType.STDP } : Synapse).weight :=
  ⟨(synapse_update_weight_stdp_spec
      { synapse_create 1 1 2 .EXCITATORY_SYNAPSE with
          plasticity := PlasticityType.STDP } 10 15).2.2.1 rfl
      (by norm_num [synapse_create]) (by norm_num),
   (synapse_update_weight_stdp_spec
      { synapse_create 1 1 2 .EXCITATORY_SYNAPSE with
          plasticity := PlasticityType.STDP } 15 10).2.2.2.1 rfl
      (by norm_num [synapse_create]) (by norm_num)⟩

/-- C5 counterexample: `CMD_CREATE_SYNAPSE` applies a weight override of
`2` with no clamping, so the synapse held by the store right after creation
violates `weight ≤ max_weight` (bounds default to `[-1, 1]`). -/
theorem synapse_weight_bounds_cex :
    (exec_command two_neuron_state .CMD_CREATE_SYNAPSE
        overweight_synapse_params).2.synapses =
      [make_synapse_from_params overweight_synapse_params] ∧
    (make_synapse_from_params overweight_synapse_params).weight = 2 ∧
    (make_synapse_from_params overweight_synapse_params).max_weight = 1 ∧
    ¬ (make_synapse_from_params overweight_synapse_params).weight ≤
        (make_synapse_from_params overweight_synapse_params).max_weight := by
  refine ⟨?_, ?_, ?_, ?_⟩
  · simp [exec_command, two_neuron_state, overweight_synapse_params,
      default_command_params, find_synapse, find_neuron, neuron_create]
  · norm_num [make_synapse_from_params, synapse_create,
      overweight_synapse_params, default_command_params]
  · norm_num [make_synapse_from_params, synapse_create,
      overweight_synapse_params, default_command_params]
  · norm_num [make_synapse_from_params, synapse_create,
      overweight_synapse_params, default_command_params]

/-- C5 (amended): the weight stays in `[min_weight, max_weight]` after
default creation, after `synapse_update_weight` (whenever it held before),
and through `synapse_activate` and `synapse_reset`, which never change the
weight or the bounds; creation through `CMD_CREATE_SYNAPSE` establishes the
invariant whenever the weight override is absent (`0`) or lies within the
default bounds `[-1, 1]` — an out-of-range override violates it. -/
theorem synapse_weight_bounds_spec (s : Synapse) (pre post input now : ℝ)
    (id pid qid : ℕ) (type : SynapseType) (params : CommandParams) :
    ((synapse_create id pid qid type).min_weight ≤
        (synapse_create id pid qid type).weight ∧
      (synapse_create id pid qid type).weight ≤
        (synapse_create id pid qid type).max_weight) ∧
    (s.min_weight ≤ s.weight → s.weight ≤ s.max_weight →
       s.min_weight ≤ (synapse_update_weight s pre post).weight ∧
         (synapse_update_weight s pre post).weight ≤ s.max_weight) ∧
    ((synapse_activate s input now).1.weight = s.weight ∧
      (synapse_activate s input now).1.min_weight = s.min_weight ∧
      (synapse_activate s input now).1.max_weight = s.max_weight) ∧
    ((synapse_reset s).weight = s.weight ∧
      (synapse_reset s).min_weight = s.min_weight ∧
      (synapse_reset s).max_weight = s.max_weight) ∧
    (-1 ≤ params.weight → params.weight ≤ 1 →
       (make_synapse_from_params params).min_weight ≤
          (make_synapse_from_params params).weight ∧
        (make_synapse_from_params params).weight ≤
          (make_synapse_from_params params).max_weight) := by
  refine ⟨?_, ?_, ?_, ?_, ?_⟩
  · exact ⟨(synapse_create_weight_mem id pid qid type).1,
      (synapse_create_weight_mem id pid qid type).2⟩
  · intro h1 h2
    by_cases hp : s.plasticity = .STDP
    · exact synapse_update_weight_weight_bounds s pre post
        (le_trans h1 h2) hp
    · have hid : synapse_update_weight s pre post = s := by
        rw [synapse_update_weight, if_pos hp]
      rw [hid]
      exact ⟨h1, h2⟩
  · rw [synapse_activate]
    split_ifs <;> exact ⟨rfl, rfl, rfl⟩
  · exact ⟨rfl, rfl, rfl⟩
  · intro h1 h2
    obtain ⟨hw, hmin, hmax⟩ := make_synapse_from_params_fields params
    rw [hw, hmin, hmax]
    split_ifs with h
    · exact ⟨h1, h2⟩
    · exact synapse_create_weight_mem params.synapse_id params.neuron_id
        params.target_id params.synapse_type

/-- C5 witness: a `CMD_CREATE_SYNAPSE` weight override of `0.7` (inside
the default bounds) yields a stored synapse satisfying the invariant. -/
theorem synapse_weight_bounds_spec_witness :
    (make_synapse_from_params
        { default_command_params with weight := 0.7 }).min_weight ≤
      (make_synapse_from_params
        { default_command_params with weight := 0.7 }).weight ∧
    (make_synapse_from_params
        { default_command_params with weight := 0.7 }).weight ≤
      (make_synapse_from_params
        { default_command_params with weight := 0.7 }).max_weight :=
  (synapse_weight_bounds_spec (synapse_create 1 1 2 .EXCITATORY_SYNAPSE)
      0 0 0 0 1 1 2 .EXCITATORY_SYNAPSE
      { default_command_params with weight := 0.7 }).2.2.2.2
    (by norm_num [default_command_params])
    (by norm_num [default_command_params])

/-- C6: after any sequence of `CMD_CREATE_NEURON` commands with
pairwise-distinct ids, every created id is findable; creating a neuron
whose id is already live fails with the duplicate-id error status `-1` and
leaves the state unchanged. -/
theorem create_neuron_find_duplicate_spec :
    (∀ (ps : List CommandParams) (st : ExecState),
       st.initialized = true → st.running = true →
       (ps.map (fun p => p.neuron_id)).Nodup →
       ∀ p ∈ ps,
         (find_neuron (create_neurons_fold st ps).neurons
             p.neuron_id).isSome = true) ∧
    (∀ (st : ExecState) (p : CommandParams),
       st.initialized = true → st.running = true →
       (find_neuron st.neurons p.neuron_id).isSome = true →
       exec_command st .CMD_CREATE_NEURON p =
         ({ status := -1, id := 0, value := 0 }, st)) := by
  constructor
  · intro ps st hi hr _hnodup p hp
    exact (create_fold_invariant ps st hi hr).2.2 p hp
  · intro st p hi hr h
    exact (exec_create_neuron_state st p hi hr).2 h

/-- C6 witness: creating neurons `1` and `2` from the freshly initialized
executor makes id `1` findable, and re-creating id `1` then fails with
status `-1` leaving the state unchanged. -/
theorem create_neuron_find_duplicate_spec_witness :
    (find_neuron (create_neurons_fold exec_init_state
        [create_params_one, create_params_two]).neurons 1).isSome = true ∧
    exec_command (create_neurons_fold exec_init_state
        [create_params_one, create_params_two]) .CMD_CREATE_NEURON
        create_params_one =
      ({ status := -1, id := 0, value := 0 },
       create_neurons_fold exec_init_state
         [create_params_one, create_params_two]) := by
  have hflags := (create_fold_invariant
      [create_params_one, create_params_two] exec_init_state rfl rfl).1
  have h1 := create_neuron_find_duplicate_spec.1
      [create_params_one, create_params_two] exec_init_state rfl rfl
      (by simp [create_params_one, create_params_two,
        default_command_params])
      create_params_one (by simp)
  exact ⟨h1, create_neuron_find_duplicate_spec.2 _ create_params_one
    hflags.1 hflags.2 h1⟩

/-- C7: `CMD_RUN_SIMULATION` always reports success (`status = 0`) on an
initialized, running executor, and the per-entity propagation failures are
silent skips: a `connected_neurons` entry whose target neuron no longer
exists changes nothing, and a pair with no connecting synapse changes
nothing. -/
theorem step_never_fails_skip_spec :
    (∀ (st : ExecState) (params : CommandParams),
       st.initialized = true → st.running = true →
       ((exec_command st .CMD_RUN_SIMULATION params).1).status = 0) ∧
    (∀ (time : ℝ) (pre tid : ℕ) (ns : List Neuron) (ss : List Synapse),
       find_neuron ns tid = none →
       propagate_one time pre tid ns ss = (ns, ss)) ∧
    (∀ (time : ℝ) (pre tid : ℕ) (ns : List Neuron) (ss : List Synapse),
       (∀ s ∈ ss, ¬ (s.pre_neuron_id = pre ∧ s.post_neuron_id = tid)) →
       propagate_one time pre tid ns ss = (ns, ss)) := by
  refine ⟨?_, ?_, ?_⟩
  · intro st params hi hr
    simp [exec_command, hi, hr]
  · intro time pre tid ns ss h
    simp [propagate_one, h]
  · intro time pre tid ns ss h
    rcases hfind : find_neuron ns tid with _ | n
    · simp [propagate_one, hfind]
    · simp [propagate_one, hfind,
        activate_first_synapse_no_match pre tid time ss h]

/-- C7 witness: with one neuron whose connection list names the absent
neuron `5`, the simulation step succeeds with status `0`, and propagation
to the absent target is the identity. -/
theorem step_never_fails_skip_spec_witness :
    ((exec_command dangling_connection_state .CMD_RUN_SIMULATION
        default_command_params).1).status = 0 ∧
    propagate_one 1 1 5 dangling_connection_state.neurons [] =
      (dangling_connection_state.neurons, []) :=
  ⟨step_never_fails_skip_spec.1 dangling_connection_state
      default_command_params rfl rfl,
   step_never_fails_skip_spec.2.1 1 1 5 dangling_connection_state.neurons
      [] (by simp [dangling_connection_state, find_neuron, neuron_create])⟩

/-- C8: the bridge simulation step is a pure function of the state, the
input sequence and the time step — two runs from identical data yield
identical outputs and states — and on an initialized engine it returns one
activation output per neuron, ordered by the neuron array (insertion)
order. -/
theorem bridge_step_deterministic_spec :
    (∀ (s1 s2 : ExecState) (in1 in2 : List ℝ) (dt1 dt2 : ℝ),
       s1 = s2 → in1 = in2 → dt1 = dt2 →
       bridge_run_simulation_step s1 in1 dt1 =
         bridge_run_simulation_step s2 in2 dt2) ∧
    (∀ (st : ExecState) (inputs : List ℝ) (dt : ℝ),
       st.initialized = true →
       ∃ outs, (bridge_run_simulation_step st inputs dt).1 = some outs ∧
         outs.length = st.neurons.length) := by
  constructor
  · intro s1 s2 in1 in2 dt1 dt2 h1 h2 h3
    rw [h1, h2, h3]
  · intro st inputs dt hi
    refine ⟨(step_neurons (st.simulation_time + dt) dt
        (apply_inputs st.neurons inputs) st.synapses).2.2, ?_, ?_⟩
    · simp [bridge_run_simulation_step, hi]
    · rw [step_neurons_outputs_length, apply_inputs_length]

/-- C8 witness: two identical runs from the freshly initialized state
coincide, and the step returns an output list matching the (empty) neuron
array. -/
theorem bridge_step_deterministic_spec_witness :
    bridge_run_simulation_step exec_init_state [1] 1 =
      bridge_run_simulation_step exec_init_state [1] 1 ∧
    ∃ outs,
      (bridge_run_simulation_step exec_init_state [1] 1).1 = some outs ∧
      outs.length = exec_init_state.neurons.length :=
  ⟨bridge_step_deterministic_spec.1 exec_init_state exec_init_state
      [1] [1] 1 1 rfl rfl rfl,
   bridge_step_deterministic_spec.2 exec_init_state [1] 1 rfl⟩

/-- C9 counterexample: no constant bounds the number of entries examined by
`find_neuron`, nor the number examined by the propagation-time synapse
scan — both are linear scans, not indexed lookups. -/
theorem lookup_constant_cost_cex :
    (¬ ∃ c : ℕ, ∀ (ns : List Neuron) (id : ℕ),
        find_neuron_cost ns id ≤ c) ∧
    (¬ ∃ c : ℕ, ∀ (ss : List Synapse) (pre post : ℕ),
        synapse_scan_cost ss pre post ≤ c) := by
  constructor
  · rintro ⟨c, hc⟩
    have h := hc (List.replicate (c + 1)
        (neuron_create 0 .EXCITATORY .LINEAR)) 1
    rw [find_neuron_cost_of_no_match] at h
    · rw [List.length_replicate] at h
      omega
    · intro n hn
      rw [List.eq_of_mem_replicate hn]
      simp [neuron_create]
  · rintro ⟨c, hc⟩
    have h := hc (List.replicate (c + 1)
        (synapse_create 0 0 0 .EXCITATORY_SYNAPSE)) 1 1
    rw [synapse_scan_cost_of_no_match] at h
    · rw [List.length_replicate] at h
      omega
    · intro s hs
      rw [List.eq_of_mem_replicate hs]
      simp [synapse_create]

/-- C9 (amended): `find_neuron` and the propagation-time synapse resolution
are linear scans: on a miss they examine every entry of the respective
array (cost equal to its length), and they never examine more entries than
the array holds. -/
theorem lookup_linear_scan_spec :
    (∀ (ns : List Neuron) (id : ℕ), (∀ n ∈ ns, n.id ≠ id) →
       find_neuron ns id = none ∧ find_neuron_cost ns id = ns.length) ∧
    (∀ (ns : List Neuron) (id : ℕ), find_neuron_cost ns id ≤ ns.length) ∧
    (∀ (ss : List Synapse) (pre post : ℕ),
       (∀ s ∈ ss, ¬ (s.pre_neuron_id = pre ∧ s.post_neuron_id = post)) →
       synapse_scan_cost ss pre post = ss.length) ∧
    (∀ (ss : List Synapse) (pre post : ℕ),
       synapse_scan_cost ss pre post ≤ ss.length) :=
  ⟨fun ns id h => ⟨find_neuron_of_no_match ns id h,
      find_neuron_cost_of_no_match ns id h⟩,
   find_neuron_cost_le_length,
   synapse_scan_cost_of_no_match,
   synapse_scan_cost_le_length⟩

/-- C9 witness: searching the two-neuron store for the absent id `7`
examines both entries. -/
theorem lookup_linear_scan_spec_witness :
    find_neuron two_neuron_state.neurons 7 = none ∧
    find_neuron_cost two_neuron_state.neurons 7 =
      two_neuron_state.neurons.length :=
  lookup_linear_scan_spec.1 two_neuron_state.neurons 7
    (by simp [two_neuron_state, neuron_create])

/-- C10: in `CMD_CREATE_NEURON` and `CMD_CREATE_SYNAPSE` an override equal
to `0.0` is treated as not provided — the defaults (threshold `-55`, rest
potential `-70`, refractory period `2`, type-dependent weight, delay `1`)
are kept — so none of these parameters is ever `0` right after creation
through this interface; the created entity is appended to the store. -/
theorem zero_override_defaults_spec (p : CommandParams) :
    ((make_neuron_from_params p).threshold =
       if p.threshold = 0 then -55 else p.threshold) ∧
    ((make_neuron_from_params p).rest_potential =
       if p.rest_potential = 0 then -70 else p.rest_potential) ∧
    ((make_neuron_from_params p).refractory_period =
       if p.refractory_period = 0 then 2 else p.refractory_period) ∧
    ((make_synapse_from_params p).weight =
       if p.weight = 0
       then (synapse_create p.synapse_id p.neuron_id p.target_id
               p.synapse_type).weight
       else p.weight) ∧
    ((make_synapse_from_params p).delay =
       if p.delay = 0 then 1 else p.delay) ∧
    (make_neuron_from_params p).threshold ≠ 0 ∧
    (make_neuron_from_params p).rest_potential ≠ 0 ∧
    (make_neuron_from_params p).refractory_period ≠ 0 ∧
    (make_synapse_from_params p).weight ≠ 0 ∧
    (make_synapse_from_params p).delay ≠ 0 ∧
    (∀ st : ExecState, st.initialized = true → st.running = true →
       find_neuron st.neurons p.neuron_id = none →
       (exec_command st .CMD_CREATE_NEURON p).2.neurons =
         st.neurons ++ [make_neuron_from_params p]) ∧
    (∀ st : ExecState, st.initialized = true → st.running = true →
       find_synapse st.synapses p.synapse_id = none →
       (find_neuron st.neurons p.neuron_id).isSome = true →
       (find_neuron st.neurons p.target_id).isSome = true →
       (exec_command st .CMD_CREATE_SYNAPSE p).2.synapses =
         st.synapses ++ [make_synapse_from_params p]) := by
  refine ⟨?_, ?_, ?_, ?_, ?_, ?_, ?_, ?_, ?_, ?_, ?_, ?_⟩
  · rw [make_neuron_from_params]
    split_ifs <;> simp_all [neuron_create]
  · rw [make_neuron_from_params]
    split_ifs <;> simp_all [neuron_create]
  · rw [make_neuron_from_params]
    split_ifs <;> simp_all [neuron_create]
  · rw [make_synapse_from_params]
    split_ifs <;> simp_all [synapse_create]
  · rw [make_synapse_from_params]
    split_ifs <;> simp_all [synapse_create]
  · rw [make_neuron_from_params]
    split_ifs <;> simp_all [neuron_create]
  · rw [make_neuron_from_params]
    split_ifs <;> simp_all [neuron_create]
  · rw [make_neuron_from_params]
    split_ifs <;> simp_all [neuron_create]
  · obtain ⟨hw, -, -⟩ := make_synapse_from_params_fields p
    rw [hw]
    split_ifs with h
    · exact h
    · simp only [synapse_create]
      split_ifs <;> norm_num
  · rw [make_synapse_from_params]
    split_ifs <;> simp_all [synapse_create]
  · intro st hi hr hfind
    have h : ¬ (find_neuron st.neurons p.neuron_id).isSome = true := by
      simp [hfind]
    simp [exec_command, hi, hr, h]
  · intro st hi hr hdup hpre hpost
    have hd : ¬ (find_synapse st.synapses p.synapse_id).isSome = true := by
      simp [hdup]
    rcases hp : find_neuron st.neurons p.neuron_id with _ | a
    · rw [hp] at hpre
      simp at hpre
    · rcases hq : find_neuron st.neurons p.target_id with _ | b
      · rw [hq] at hpost
        simp at hpost
      · simp [exec_command, hi, hr, hd, hp, hq]

/-- C10 witness: creating a neuron with all-zero override parameters from
the fresh executor appends the default neuron, and creating the synapse
with the weight-2 override appends the overridden synapse. -/
theorem zero_override_defaults_spec_witness :
    (exec_command exec_init_state .CMD_CREATE_NEURON
        default_command_params).2.neurons =
      exec_init_state.neurons ++
        [make_neuron_from_params default_command_params] ∧
    (exec_command two_neuron_state .CMD_CREATE_SYNAPSE
        overweight_synapse_params).2.synapses =
      two_neuron_state.synapses ++
        [make_synapse_from_params overweight_synapse_params] :=
  ⟨(zero_override_defaults_spec
      default_command_params).2.2.2.2.2.2.2.2.2.2.1
      exec_init_state rfl rfl rfl,
   (zero_override_defaults_spec
      overweight_synapse_params).2.2.2.2.2.2.2.2.2.2.2
      two_neuron_state rfl rfl rfl
      (by simp [two_neuron_state, find_neuron, neuron_create,
        overweight_synapse_params, default_command_params])
      (by simp [two_neuron_state, find_neuron, neuron_create,
        overweight_synapse_params, default_command_params])⟩

end NeuroGate
